import Mathlib

/-!
Verification of the SimCompanyTool profit/ranking engine (src/profitcalc.py).

The Python program computes, from user scenario inputs, a profit comparison
between a private "contract" sale and a public "exchange" sale, a breakeven
exchange price, a verdict, and (after fetching market listings) a sorted
ranking of a synthesized user listing together with a suggested price.

We embed the arithmetic over ℚ (the Python source uses IEEE floats for
display only; every claim under verification is an exact algebraic identity
over the formulas, which we model exactly).  Listings and the sort/rank
pipeline are embedded as lists with the lexicographic key used by the
source; the pandas failure mode (an exception-produced empty frame has no
`quality` column, so the downstream filter raises `KeyError`) is modelled
with an explicit frame type and `Except`.
-/

namespace ProfitCalc

/-- Constant from the source: `EXCHANGE_FEE_PERCENT = 4.0`. -/
def EXCHANGE_FEE_PERCENT : ℚ := 4.0

/-- The scenario inputs read from the UI widgets (lines 33-70 of the source):
quantity (min 1), contract price, the user's exchange price (`your_price`),
transport cost per unit, production (source) cost per unit, product quality. -/
structure ScenarioInput where
  quantity : ℚ
  contract_price : ℚ
  your_price : ℚ
  transport_cost : ℚ
  source_cost : ℚ
  quality : ℤ
deriving DecidableEq

/-- Line 78: `contract_revenue = quantity * contract_price`. -/
def contract_revenue (s : ScenarioInput) : ℚ := s.quantity * s.contract_price

/-- Line 79: `contract_transport = (quantity / 2) * transport_cost`. -/
def contract_transport (s : ScenarioInput) : ℚ := (s.quantity / 2) * s.transport_cost

/-- Line 80: `contract_cost = quantity * source_cost`. -/
def contract_cost (s : ScenarioInput) : ℚ := s.quantity * s.source_cost

/-- Line 81: `contract_net = contract_revenue - contract_transport - contract_cost`. -/
def contract_net (s : ScenarioInput) : ℚ :=
  contract_revenue s - contract_transport s - contract_cost s

/-- Line 82: `contract_unit_profit = contract_net / quantity`. -/
def contract_unit_profit (s : ScenarioInput) : ℚ := contract_net s / s.quantity

/-- Line 84: `required_exchange_price =
(contract_unit_profit + transport_cost + source_cost) / (1 - EXCHANGE_FEE_PERCENT / 100)`. -/
def required_exchange_price (s : ScenarioInput) : ℚ :=
  (contract_unit_profit s + s.transport_cost + s.source_cost) / (1 - EXCHANGE_FEE_PERCENT / 100)

/-- Line 86: `exchange_revenue = quantity * your_price`. -/
def exchange_revenue (s : ScenarioInput) : ℚ := s.quantity * s.your_price

/-- Line 87: `exchange_transport = quantity * transport_cost`. -/
def exchange_transport (s : ScenarioInput) : ℚ := s.quantity * s.transport_cost

/-- Line 88: `exchange_fee = exchange_revenue * EXCHANGE_FEE_PERCENT / 100`. -/
def exchange_fee (s : ScenarioInput) : ℚ := exchange_revenue s * EXCHANGE_FEE_PERCENT / 100

/-- Line 89: `exchange_cost = quantity * source_cost`. -/
def exchange_cost (s : ScenarioInput) : ℚ := s.quantity * s.source_cost

/-- Line 90: `exchange_net = exchange_revenue - exchange_transport - exchange_fee - exchange_cost`. -/
def exchange_net (s : ScenarioInput) : ℚ :=
  exchange_revenue s - exchange_transport s - exchange_fee s - exchange_cost s

/-- Line 91: `exchange_unit_profit = exchange_net / quantity`. -/
def exchange_unit_profit (s : ScenarioInput) : ℚ := exchange_net s / s.quantity

/-- Line 93: `contract_in_hand = contract_revenue - contract_transport`. -/
def contract_in_hand (s : ScenarioInput) : ℚ := contract_revenue s - contract_transport s

/-- Line 94: `exchange_in_hand = exchange_revenue - exchange_transport - exchange_fee`. -/
def exchange_in_hand (s : ScenarioInput) : ℚ :=
  exchange_revenue s - exchange_transport s - exchange_fee s

/-- Line 95: `in_hand_diff = exchange_in_hand - contract_in_hand`. -/
def in_hand_diff (s : ScenarioInput) : ℚ := exchange_in_hand s - contract_in_hand s

/-- Lines 160-163: the verdict branch `if your_price >= required_exchange_price`. -/
def verdict (s : ScenarioInput) : Bool := decide (required_exchange_price s ≤ s.your_price)

/-- The concrete scenario of the spec's worked example: quantity 10000,
contract price 9.30, exchange price 9.70, transport 0.49/unit, production
5.00/unit, quality 0. -/
def sampleScenario : ScenarioInput :=
  { quantity := 10000, contract_price := 9.30, your_price := 9.70,
    transport_cost := 0.49, source_cost := 5.00, quality := 0 }

/-- The exchange per-unit profit that the exchange pipeline (lines 86-91)
computes when the listed price is `p` instead of `your_price`. -/
def exchange_unit_profit_at (s : ScenarioInput) (p : ℚ) : ℚ :=
  exchange_unit_profit { s with your_price := p }

/-- With nonzero quantity the exchange per-unit profit collapses to the
closed form `price - transport - source - price * feeRate`. -/
theorem exchange_unit_profit_closed_form (s : ScenarioInput) (p : ℚ) (hq : s.quantity ≠ 0) :
    exchange_unit_profit_at s p
      = p - s.transport_cost - s.source_cost - p * (EXCHANGE_FEE_PERCENT / 100) := by
  simp only [exchange_unit_profit_at, exchange_unit_profit, exchange_net, exchange_revenue,
    exchange_transport, exchange_fee, exchange_cost, EXCHANGE_FEE_PERCENT]
  field_simp
  ring

/-- A market listing row as returned by the exchange API and used by the
ranking pipeline: price, quality, quantity, seller company name
(`seller.company`), posted timestamp (UTC, in minutes). -/
structure MarketListing where
  price : ℚ
  quality : ℤ
  quantity : ℚ
  seller : String
  posted : ℤ
deriving DecidableEq

/-- Lines 140-141: `custom_sort_key(row) = (price, -quality, posted)`. -/
def custom_sort_key (r : MarketListing) : ℚ × ℤ × ℤ := (r.price, -r.quality, r.posted)

/-- The lexicographic (Python-tuple) non-strict comparison on sort keys;
`sort_values` on the tuple-valued key column arranges rows by this order. -/
def tupLe (x y : ℚ × ℤ × ℤ) : Prop :=
  x.1 < y.1 ∨ (x.1 = y.1 ∧ (x.2.1 < y.2.1 ∨ (x.2.1 = y.2.1 ∧ x.2.2 ≤ y.2.2)))

instance : DecidableRel tupLe := fun x y => by unfold tupLe; exact inferInstance

/-- The row order induced by `custom_sort_key`: ascending price, then
descending quality, then ascending posted time. -/
def keyLe (a b : MarketListing) : Prop := tupLe (custom_sort_key a) (custom_sort_key b)

instance : DecidableRel keyLe := fun a b => by unfold keyLe; exact inferInstance

theorem tupLe_total (x y : ℚ × ℤ × ℤ) : tupLe x y ∨ tupLe y x := by
  unfold tupLe
  rcases lt_trichotomy x.1 y.1 with h | h | h
  · exact Or.inl (Or.inl h)
  · rcases lt_trichotomy x.2.1 y.2.1 with h2 | h2 | h2
    · exact Or.inl (Or.inr ⟨h, Or.inl h2⟩)
    · rcases le_total x.2.2 y.2.2 with h3 | h3
      · exact Or.inl (Or.inr ⟨h, Or.inr ⟨h2, h3⟩⟩)
      · exact Or.inr (Or.inr ⟨h.symm, Or.inr ⟨h2.symm, h3⟩⟩)
    · exact Or.inr (Or.inr ⟨h.symm, Or.inl h2⟩)
  · exact Or.inr (Or.inl h)

theorem tupLe_trans (x y z : ℚ × ℤ × ℤ) (hxy : tupLe x y) (hyz : tupLe y z) :
    tupLe x z := by
  unfold tupLe at *
  rcases hxy with h1 | ⟨e1, h1⟩ <;> rcases hyz with h2 | ⟨e2, h2⟩
  · exact Or.inl (h1.trans h2)
  · exact Or.inl (h1.trans_eq e2)
  · exact Or.inl (e1.trans_lt h2)
  · refine Or.inr ⟨e1.trans e2, ?_⟩
    rcases h1 with h3 | ⟨f1, h3⟩ <;> rcases h2 with h4 | ⟨f2, h4⟩
    · exact Or.inl (h3.trans h4)
    · exact Or.inl (h3.trans_eq f2)
    · exact Or.inl (f1.trans_lt h4)
    · exact Or.inr ⟨f1.trans f2, h3.trans h4⟩

theorem tupLe_antisymm (x y : ℚ × ℤ × ℤ) (hxy : tupLe x y) (hyx : tupLe y x) :
    x = y := by
  obtain ⟨x1, x2, x3⟩ := x
  obtain ⟨y1, y2, y3⟩ := y
  simp only [tupLe] at hxy hyx
  rcases hxy with h1 | ⟨e1, hxy2⟩
  · rcases hyx with h2 | ⟨e2, _⟩
    · exact absurd (h1.trans h2) (lt_irrefl _)
    · exact absurd (h1.trans_eq e2) (lt_irrefl _)
  · rcases hyx with h2 | ⟨_, hyx2⟩
    · exact absurd (e1.trans_lt h2) (lt_irrefl _)
    · rcases hxy2 with h3 | ⟨e3, hxy3⟩
      · rcases hyx2 with h4 | ⟨e4, _⟩
        · exact absurd (h3.trans h4) (lt_irrefl _)
        · exact absurd (h3.trans_eq e4) (lt_irrefl _)
      · rcases hyx2 with h4 | ⟨_, hyx3⟩
        · exact absurd (e3.trans_lt h4) (lt_irrefl _)
        · have h5 : x3 = y3 := le_antisymm hxy3 hyx3
          simp [e1, e3, h5]

instance : IsTotal MarketListing keyLe := ⟨fun a b => tupLe_total _ _⟩

instance : IsTrans MarketListing keyLe := ⟨fun a b c => tupLe_trans _ _ _⟩

/-- Lines 130-136: the synthesized user listing: the scenario's price,
quality and quantity, seller name "Your Listing", posted one minute before
the current instant `now`. -/
def user_listing (s : ScenarioInput) (now : ℤ) : MarketListing :=
  { price := s.your_price, quality := s.quality, quantity := s.quantity,
    seller := "Your Listing", posted := now - 1 }

/-- Line 127: the quality filter `market_df[market_df.quality >= quality]`. -/
def market_filter (q : ℤ) (rows : List MarketListing) : List MarketListing :=
  rows.filter fun r => decide (q ≤ r.quality)

/-- Lines 137-144: append the user listing to the (already quality-filtered)
market rows and sort the merged collection by `custom_sort_key`. -/
def sorted_merge (kept : List MarketListing) (u : MarketListing) : List MarketListing :=
  List.insertionSort keyLe (kept ++ [u])

/-- Lines 126-144 on the success path: filter, merge, sort. -/
def combined_listings (s : ScenarioInput) (now : ℤ) (rows : List MarketListing) :
    List MarketListing :=
  sorted_merge (market_filter s.quality rows) (user_listing s now)

/-- Lines 147-152: the Boolean row mask selecting the user's listing:
equality on price, quality, quantity, and seller name "Your Listing". -/
def matches_user (s : ScenarioInput) (r : MarketListing) : Bool :=
  decide (r.price = s.your_price) && decide (r.quality = s.quality) &&
    decide (r.quantity = s.quantity) && decide (r.seller = "Your Listing")

/-- Line 152, `.index[0]`: the 0-based position of the first row matching
the mask; `none` models the `IndexError` raised when no row matches. -/
def user_index (s : ScenarioInput) (l : List MarketListing) : Option ℕ :=
  l.findIdx? (matches_user s)

/-- Line 154: `lowest_price = combined_df.iloc[0].price`, the price of the
first row of the sorted frame.  The merged frame always contains the user
listing, so the empty case (where `iloc[0]` would raise) is unreachable;
it is mapped to 0. -/
def first_price : List MarketListing → ℚ
  | [] => 0
  | r :: _ => r.price

/-- Line 155: `smart_price = max(required_exchange_price, lowest_price - 0.01)`. -/
def smart_price (s : ScenarioInput) (now : ℤ) (rows : List MarketListing) : ℚ :=
  max (required_exchange_price s) (first_price (combined_listings s now rows) - 0.01)

/-- A pandas frame of listings as produced by `fetch_market`: either a
frame with proper listing columns, or the column-less empty frame
`pd.DataFrame([])` returned by the `except` branch. -/
inductive MarketFrame where
  | frame (rows : List MarketListing)
  | emptyNoCols
deriving DecidableEq

/-- Lines 115-124, `fetch_market`: a successful fetch of a non-empty
listing collection yields a proper frame; a failed fetch returns
`pd.DataFrame([])`, which has no columns; a successful fetch of an empty
collection also ends in the `except` branch (normalizing `[]` produces a
column-less frame, so reading its `posted` column raises inside the `try`),
returning the same column-less empty frame. -/
def fetch_market (fetchOk : Bool) (rows : List MarketListing) : MarketFrame :=
  if fetchOk && !rows.isEmpty then .frame rows else .emptyNoCols

/-- Line 127: selecting the `quality` column of the column-less empty frame
raises `KeyError`; on a proper frame the quality filter is applied. -/
def filter_step (q : ℤ) : MarketFrame → Except String (List MarketListing)
  | .frame rows => .ok (market_filter q rows)
  | .emptyNoCols => .error "KeyError: quality"

/-- Lines 126-165 as a pipeline: fetch, filter by quality, merge with the
user listing, sort, and report the user's 1-based rank together with the
total listing count. -/
def rank_report (s : ScenarioInput) (now : ℤ) (fetchOk : Bool)
    (rows : List MarketListing) : Except String (ℕ × ℕ) :=
  match filter_step s.quality (fetch_market fetchOk rows) with
  | .error e => .error e
  | .ok kept =>
      match user_index s (sorted_merge kept (user_listing s now)) with
      | none => .error "IndexError: index 0 is out of bounds"
      | some i => .ok (i + 1, (sorted_merge kept (user_listing s now)).length)

/-- C1: for every scenario with positive quantity, the contract-channel and
exchange-channel breakdowns satisfy exactly the spec's formulas: contract
revenue, half-transport, production cost, net = revenue - transport - cost,
per-unit = net / quantity; exchange revenue, full transport, 4% fee on
revenue, net = revenue - transport - fee - cost; and the two in-hand
amounts. -/
theorem contract_exchange_breakdown (s : ScenarioInput) (hq : 0 < s.quantity) :
    contract_revenue s = s.quantity * s.contract_price ∧
    contract_transport s = (s.quantity / 2) * s.transport_cost ∧
    contract_cost s = s.quantity * s.source_cost ∧
    contract_net s = contract_revenue s - contract_transport s - contract_cost s ∧
    contract_unit_profit s = contract_net s / s.quantity ∧
    exchange_revenue s = s.quantity * s.your_price ∧
    exchange_transport s = s.quantity * s.transport_cost ∧
    exchange_fee s = exchange_revenue s * 4.0 / 100 ∧
    exchange_cost s = s.quantity * s.source_cost ∧
    exchange_net s = exchange_revenue s - exchange_transport s - exchange_fee s - exchange_cost s ∧
    exchange_unit_profit s = exchange_net s / s.quantity ∧
    contract_in_hand s = contract_revenue s - contract_transport s ∧
    exchange_in_hand s = exchange_revenue s - exchange_transport s - exchange_fee s := by
  refine ⟨rfl, rfl, rfl, rfl, rfl, rfl, rfl, ?_, rfl, rfl, rfl, rfl, rfl⟩
  unfold exchange_fee EXCHANGE_FEE_PERCENT
  norm_num

/-- C1 witness: the breakdown equations hold at the concrete source scenario. -/
theorem contract_exchange_breakdown_witness :
    (0 : ℚ) < sampleScenario.quantity ∧
    (contract_revenue sampleScenario
        = sampleScenario.quantity * sampleScenario.contract_price ∧
      contract_transport sampleScenario
        = (sampleScenario.quantity / 2) * sampleScenario.transport_cost ∧
      contract_cost sampleScenario
        = sampleScenario.quantity * sampleScenario.source_cost ∧
      contract_net sampleScenario
        = contract_revenue sampleScenario - contract_transport sampleScenario
          - contract_cost sampleScenario ∧
      contract_unit_profit sampleScenario
        = contract_net sampleScenario / sampleScenario.quantity ∧
      exchange_revenue sampleScenario
        = sampleScenario.quantity * sampleScenario.your_price ∧
      exchange_transport sampleScenario
        = sampleScenario.quantity * sampleScenario.transport_cost ∧
      exchange_fee sampleScenario = exchange_revenue sampleScenario * 4.0 / 100 ∧
      exchange_cost sampleScenario
        = sampleScenario.quantity * sampleScenario.source_cost ∧
      exchange_net sampleScenario
        = exchange_revenue sampleScenario - exchange_transport sampleScenario
          - exchange_fee sampleScenario - exchange_cost sampleScenario ∧
      exchange_unit_profit sampleScenario
        = exchange_net sampleScenario / sampleScenario.quantity ∧
      contract_in_hand sampleScenario
        = contract_revenue sampleScenario - contract_transport sampleScenario ∧
      exchange_in_hand sampleScenario
        = exchange_revenue sampleScenario - exchange_transport sampleScenario
          - exchange_fee sampleScenario) :=
  ⟨by norm_num [sampleScenario],
    contract_exchange_breakdown sampleScenario (by norm_num [sampleScenario])⟩

/-- C2: with positive quantity, the verdict Boolean is true exactly when
`your_price` is at least the required exchange price (non-strict), and that
comparison is equivalent to the exchange per-unit profit being at least the
contract per-unit profit. -/
theorem verdict_iff_exchange_beats_contract (s : ScenarioInput) (hq : 0 < s.quantity) :
    (verdict s = true ↔ required_exchange_price s ≤ s.your_price) ∧
    (required_exchange_price s ≤ s.your_price ↔
      contract_unit_profit s ≤ exchange_unit_profit s) := by
  have hq' : s.quantity ≠ 0 := ne_of_gt hq
  have he : exchange_unit_profit s
      = s.your_price - s.transport_cost - s.source_cost
        - s.your_price * (EXCHANGE_FEE_PERCENT / 100) :=
    exchange_unit_profit_closed_form s s.your_price hq'
  constructor
  · simp [verdict]
  · rw [he]
    unfold required_exchange_price EXCHANGE_FEE_PERCENT
    rw [div_le_iff₀ (by norm_num : (0 : ℚ) < 1 - 4.0 / 100)]
    constructor <;> intro h <;> nlinarith [h]

/-- C2 witness: at the sample scenario the verdict is equivalent to the
price comparison and to the per-unit profit comparison. -/
theorem verdict_iff_exchange_beats_contract_witness :
    (0 : ℚ) < sampleScenario.quantity ∧
    ((verdict sampleScenario = true ↔
        required_exchange_price sampleScenario ≤ sampleScenario.your_price) ∧
      (required_exchange_price sampleScenario ≤ sampleScenario.your_price ↔
        contract_unit_profit sampleScenario ≤ exchange_unit_profit sampleScenario)) :=
  ⟨by norm_num [sampleScenario],
    verdict_iff_exchange_beats_contract sampleScenario (by norm_num [sampleScenario])⟩

/-- C3: with positive quantity, the required exchange price equals
`(contract_unit_profit + transport + source) / (1 - 4.0/100)`; substituting
it for the exchange price in the exchange pipeline reproduces the closed
form `p - transport - source - p * (4.0/100)` and yields exactly the
contract per-unit profit. -/
theorem required_price_is_breakeven (s : ScenarioInput) (hq : 0 < s.quantity) :
    required_exchange_price s
      = (contract_unit_profit s + s.transport_cost + s.source_cost) / (1 - 4.0 / 100) ∧
    exchange_unit_profit_at s (required_exchange_price s)
      = required_exchange_price s - s.transport_cost - s.source_cost
          - required_exchange_price s * (4.0 / 100) ∧
    exchange_unit_profit_at s (required_exchange_price s) = contract_unit_profit s := by
  have hq' : s.quantity ≠ 0 := ne_of_gt hq
  refine ⟨rfl, ?_, ?_⟩
  · rw [exchange_unit_profit_closed_form s _ hq']
    norm_num [EXCHANGE_FEE_PERCENT]
  · rw [exchange_unit_profit_closed_form s _ hq']
    unfold required_exchange_price EXCHANGE_FEE_PERCENT
    field_simp
    ring

/-- C3 witness: breakeven property at the sample scenario. -/
theorem required_price_is_breakeven_witness :
    (0 : ℚ) < sampleScenario.quantity ∧
    (required_exchange_price sampleScenario
        = (contract_unit_profit sampleScenario + sampleScenario.transport_cost
            + sampleScenario.source_cost) / (1 - 4.0 / 100) ∧
      exchange_unit_profit_at sampleScenario (required_exchange_price sampleScenario)
        = required_exchange_price sampleScenario - sampleScenario.transport_cost
            - sampleScenario.source_cost
            - required_exchange_price sampleScenario * (4.0 / 100) ∧
      exchange_unit_profit_at sampleScenario (required_exchange_price sampleScenario)
        = contract_unit_profit sampleScenario) :=
  ⟨by norm_num [sampleScenario],
    required_price_is_breakeven sampleScenario (by norm_num [sampleScenario])⟩

/-- C4 counterexample: at the spec's concrete scenario the code computes a
required exchange price of 1909/192 = 9.94270833..., which is more than
half of one ten-thousandth above 9.9323, so it does not equal 9.9323 to 4
decimal places as the claim states. -/
theorem sample_required_price_not_9_9323 :
    required_exchange_price sampleScenario = 1909 / 192 ∧
    (9.9323 : ℚ) + 1 / 20000 < required_exchange_price sampleScenario := by
  constructor <;>
    norm_num [required_exchange_price, contract_unit_profit, contract_net, contract_revenue,
      contract_transport, contract_cost, EXCHANGE_FEE_PERCENT, sampleScenario]

/-- C4 (amended): at the concrete scenario the program computes
contractRevenue 93000, contractTransport 2450, contractCost 50000,
contractNet 40550, contractNetPerUnit 4.055, exchangeRevenue 97000,
exchangeTransport 4900, exchangeFee 3880, exchangeCost 50000, exchangeNet
38220, exchangeNetPerUnit 3.822, requiredExchangePrice 1909/192 = 9.9427
to 4 decimal places, and verdict false. -/
theorem sample_scenario_breakdown :
    contract_revenue sampleScenario = 93000 ∧
    contract_transport sampleScenario = 2450 ∧
    contract_cost sampleScenario = 50000 ∧
    contract_net sampleScenario = 40550 ∧
    contract_unit_profit sampleScenario = 4.055 ∧
    exchange_revenue sampleScenario = 97000 ∧
    exchange_transport sampleScenario = 4900 ∧
    exchange_fee sampleScenario = 3880 ∧
    exchange_cost sampleScenario = 50000 ∧
    exchange_net sampleScenario = 38220 ∧
    exchange_unit_profit sampleScenario = 3.822 ∧
    required_exchange_price sampleScenario = 1909 / 192 ∧
    (9.9427 : ℚ) - 1 / 20000 ≤ required_exchange_price sampleScenario ∧
    required_exchange_price sampleScenario ≤ (9.9427 : ℚ) + 1 / 20000 ∧
    verdict sampleScenario = false := by
  refine ⟨?_, ?_, ?_, ?_, ?_, ?_, ?_, ?_, ?_, ?_, ?_, ?_, ?_, ?_, ?_⟩ <;>
    norm_num [contract_revenue, contract_transport, contract_cost, contract_net,
      contract_unit_profit, exchange_revenue, exchange_transport, exchange_fee, exchange_cost,
      exchange_net, exchange_unit_profit, required_exchange_price, verdict,
      EXCHANGE_FEE_PERCENT, sampleScenario]

/-- C9: under the precondition `0 < quantity`, every divisor in the profit
computation is nonzero: the quantity itself (per-unit profits) and the fee
complement `1 - 4.0/100` (required price); consequently each quotient
multiplied back by its divisor recovers the dividend, so the three divisions
are exact and total. -/
theorem division_safety (s : ScenarioInput) (hq : 0 < s.quantity) :
    s.quantity ≠ 0 ∧
    ((1 : ℚ) - EXCHANGE_FEE_PERCENT / 100) ≠ 0 ∧
    contract_unit_profit s * s.quantity = contract_net s ∧
    exchange_unit_profit s * s.quantity = exchange_net s ∧
    required_exchange_price s * (1 - EXCHANGE_FEE_PERCENT / 100)
      = contract_unit_profit s + s.transport_cost + s.source_cost := by
  have hq' : s.quantity ≠ 0 := ne_of_gt hq
  have hf : ((1 : ℚ) - EXCHANGE_FEE_PERCENT / 100) ≠ 0 := by
    norm_num [EXCHANGE_FEE_PERCENT]
  exact ⟨hq', hf, div_mul_cancel₀ _ hq', div_mul_cancel₀ _ hq', div_mul_cancel₀ _ hf⟩

/-- C9 witness: division safety at the sample scenario. -/
theorem division_safety_witness :
    (0 : ℚ) < sampleScenario.quantity ∧
    (sampleScenario.quantity ≠ 0 ∧
      ((1 : ℚ) - EXCHANGE_FEE_PERCENT / 100) ≠ 0 ∧
      contract_unit_profit sampleScenario * sampleScenario.quantity
        = contract_net sampleScenario ∧
      exchange_unit_profit sampleScenario * sampleScenario.quantity
        = exchange_net sampleScenario ∧
      required_exchange_price sampleScenario * (1 - EXCHANGE_FEE_PERCENT / 100)
        = contract_unit_profit sampleScenario + sampleScenario.transport_cost
          + sampleScenario.source_cost) :=
  ⟨by norm_num [sampleScenario],
    division_safety sampleScenario (by norm_num [sampleScenario])⟩

/-- C10: two scenarios that agree on every input except the exchange price
produce identical contract-channel figures and the same required exchange
price: the exchange price cannot influence any of them. -/
theorem contract_figures_ignore_exchange_price (s t : ScenarioInput)
    (hq : s.quantity = t.quantity) (hcp : s.contract_price = t.contract_price)
    (htc : s.transport_cost = t.transport_cost) (hsc : s.source_cost = t.source_cost)
    (hql : s.quality = t.quality) :
    contract_revenue s = contract_revenue t ∧
    contract_transport s = contract_transport t ∧
    contract_cost s = contract_cost t ∧
    contract_net s = contract_net t ∧
    contract_unit_profit s = contract_unit_profit t ∧
    contract_in_hand s = contract_in_hand t ∧
    required_exchange_price s = required_exchange_price t := by
  refine ⟨?_, ?_, ?_, ?_, ?_, ?_, ?_⟩ <;>
    simp only [contract_revenue, contract_transport, contract_cost, contract_net,
      contract_unit_profit, contract_in_hand, required_exchange_price, hq, hcp, htc, hsc]

/-- C10 witness: two concrete scenarios differing only in the exchange price
(9.70 versus 8.00) share all contract figures and the required price. -/
theorem contract_figures_ignore_exchange_price_witness :
    (sampleScenario.quantity = (⟨10000, 9.30, 8.00, 0.49, 5.00, 0⟩ : ScenarioInput).quantity ∧
      sampleScenario.contract_price
        = (⟨10000, 9.30, 8.00, 0.49, 5.00, 0⟩ : ScenarioInput).contract_price ∧
      sampleScenario.transport_cost
        = (⟨10000, 9.30, 8.00, 0.49, 5.00, 0⟩ : ScenarioInput).transport_cost ∧
      sampleScenario.source_cost
        = (⟨10000, 9.30, 8.00, 0.49, 5.00, 0⟩ : ScenarioInput).source_cost ∧
      sampleScenario.quality = (⟨10000, 9.30, 8.00, 0.49, 5.00, 0⟩ : ScenarioInput).quality) ∧
    (contract_revenue sampleScenario
        = contract_revenue ⟨10000, 9.30, 8.00, 0.49, 5.00, 0⟩ ∧
      contract_transport sampleScenario
        = contract_transport ⟨10000, 9.30, 8.00, 0.49, 5.00, 0⟩ ∧
      contract_cost sampleScenario = contract_cost ⟨10000, 9.30, 8.00, 0.49, 5.00, 0⟩ ∧
      contract_net sampleScenario = contract_net ⟨10000, 9.30, 8.00, 0.49, 5.00, 0⟩ ∧
      contract_unit_profit sampleScenario
        = contract_unit_profit ⟨10000, 9.30, 8.00, 0.49, 5.00, 0⟩ ∧
      contract_in_hand sampleScenario
        = contract_in_hand ⟨10000, 9.30, 8.00, 0.49, 5.00, 0⟩ ∧
      required_exchange_price sampleScenario
        = required_exchange_price ⟨10000, 9.30, 8.00, 0.49, 5.00, 0⟩) :=
  ⟨⟨rfl, rfl, rfl, rfl, rfl⟩,
    contract_figures_ignore_exchange_price sampleScenario
      ⟨10000, 9.30, 8.00, 0.49, 5.00, 0⟩ rfl rfl rfl rfl rfl⟩

/-- C5: the suggested price is exactly
`max(required_exchange_price, lowest_price - 0.01)`; consequently it is
never below the required exchange price, and whenever undercutting the
cheapest listing by one cent exceeds the required price, the suggestion is
exactly that undercut value. -/
theorem smart_price_spec (s : ScenarioInput) (now : ℤ) (rows : List MarketListing) :
    smart_price s now rows
      = max (required_exchange_price s)
          (first_price (combined_listings s now rows) - 0.01) ∧
    required_exchange_price s ≤ smart_price s now rows ∧
    (required_exchange_price s < first_price (combined_listings s now rows) - 0.01 →
      smart_price s now rows = first_price (combined_listings s now rows) - 0.01) :=
  ⟨rfl, le_max_left _ _, fun h => max_eq_right h.le⟩

/-- C5 witness: with required price 0 and a lone user listing at price 5,
the one-cent undercut 4.99 exceeds the required price and is suggested. -/
theorem smart_price_spec_witness :
    (smart_price ⟨1, 0, 5, 0, 0, 0⟩ 0 []
        = max (required_exchange_price ⟨1, 0, 5, 0, 0, 0⟩)
            (first_price (combined_listings ⟨1, 0, 5, 0, 0, 0⟩ 0 []) - 0.01) ∧
      required_exchange_price ⟨1, 0, 5, 0, 0, 0⟩ ≤ smart_price ⟨1, 0, 5, 0, 0, 0⟩ 0 [] ∧
      (required_exchange_price ⟨1, 0, 5, 0, 0, 0⟩
          < first_price (combined_listings ⟨1, 0, 5, 0, 0, 0⟩ 0 []) - 0.01 →
        smart_price ⟨1, 0, 5, 0, 0, 0⟩ 0 []
          = first_price (combined_listings ⟨1, 0, 5, 0, 0, 0⟩ 0 []) - 0.01)) ∧
    required_exchange_price ⟨1, 0, 5, 0, 0, 0⟩
      < first_price (combined_listings ⟨1, 0, 5, 0, 0, 0⟩ 0 []) - 0.01 ∧
    smart_price ⟨1, 0, 5, 0, 0, 0⟩ 0 []
      = first_price (combined_listings ⟨1, 0, 5, 0, 0, 0⟩ 0 []) - 0.01 := by
  have hlt : required_exchange_price ⟨1, 0, 5, 0, 0, 0⟩
      < first_price (combined_listings ⟨1, 0, 5, 0, 0, 0⟩ 0 []) - 0.01 := by
    norm_num [required_exchange_price, contract_unit_profit, contract_net, contract_revenue,
      contract_transport, contract_cost, EXCHANGE_FEE_PERCENT, combined_listings,
      sorted_merge, market_filter, user_listing, first_price]
  exact ⟨smart_price_spec ⟨1, 0, 5, 0, 0, 0⟩ 0 [], hlt,
    (smart_price_spec ⟨1, 0, 5, 0, 0, 0⟩ 0 []).2.2 hlt⟩

/-- C6: the merged listing collection is sorted by the key order
(ascending price, descending quality, ascending posted time); that order is
total, transitive and antisymmetric on keys (a total order), and sorting
the already-sorted ranked output again leaves it unchanged. -/
theorem ranking_sorted_total_order_idempotent (s : ScenarioInput) (now : ℤ)
    (rows : List MarketListing) :
    List.Sorted keyLe (combined_listings s now rows) ∧
    (∀ a b : MarketListing, keyLe a b ∨ keyLe b a) ∧
    (∀ a b c : MarketListing, keyLe a b → keyLe b c → keyLe a c) ∧
    (∀ a b : MarketListing, keyLe a b → keyLe b a →
      custom_sort_key a = custom_sort_key b) ∧
    List.insertionSort keyLe (combined_listings s now rows)
      = combined_listings s now rows :=
  ⟨List.sorted_insertionSort keyLe _, fun _ _ => tupLe_total _ _,
    fun _ _ _ => tupLe_trans _ _ _, fun _ _ => tupLe_antisymm _ _,
    (List.sorted_insertionSort keyLe _).insertionSort_eq⟩

/-- The graceful-degradation behavior the spec asks for does hold of the
merge/sort/rank steps themselves: with no market rows the merged frame is
the user listing alone, found at index 0, out of 1 listing in total. -/
theorem empty_market_rank (s : ScenarioInput) (now : ℤ) :
    combined_listings s now [] = [user_listing s now] ∧
    user_index s (combined_listings s now []) = some 0 ∧
    (combined_listings s now []).length = 1 := by
  have h : combined_listings s now [] = [user_listing s now] := by
    simp [combined_listings, sorted_merge, market_filter]
  refine ⟨h, ?_, by rw [h]; rfl⟩
  rw [h]
  simp [user_index, matches_user, user_listing]

/-- C7 failing input: when the fetch fails (and likewise when it returns no
rows), `fetch_market` hands back the column-less empty frame, and the
quality-filter step then raises `KeyError: quality` — the pipeline ends in
a fatal error instead of reporting rank 1 of 1. -/
theorem fetch_failure_raises_keyerror :
    fetch_market false [] = MarketFrame.emptyNoCols ∧
    fetch_market true [] = MarketFrame.emptyNoCols ∧
    rank_report sampleScenario 0 false [] = Except.error "KeyError: quality" ∧
    rank_report sampleScenario 0 true [] = Except.error "KeyError: quality" :=
  ⟨rfl, rfl, rfl, rfl⟩

/-- C8: every row of the ranked output is the user's own listing or a
market row that survived the quality filter, hence has quality at least the
scenario's product quality. -/
theorem ranking_respects_quality_filter (s : ScenarioInput) (now : ℤ)
    (rows : List MarketListing) (r : MarketListing)
    (hr : r ∈ combined_listings s now rows) :
    r = user_listing s now ∨ s.quality ≤ r.quality := by
  have hperm : List.Perm
      (List.insertionSort keyLe (market_filter s.quality rows ++ [user_listing s now]))
      (market_filter s.quality rows ++ [user_listing s now]) :=
    List.perm_insertionSort keyLe _
  have hmem : r ∈ market_filter s.quality rows ++ [user_listing s now] :=
    hperm.mem_iff.mp hr
  rcases List.mem_append.mp hmem with h | h
  · right
    have hf := List.mem_filter.mp h
    exact of_decide_eq_true hf.2
  · left
    simpa using h

/-- C8 witness: a quality-3 market row participating in the ranking of a
quality-0 scenario is covered by the filter bound. -/
theorem ranking_respects_quality_filter_witness :
    (⟨10, 3, 5, "A", 7⟩ : MarketListing)
        ∈ combined_listings sampleScenario 0 [⟨10, 3, 5, "A", 7⟩] ∧
    ((⟨10, 3, 5, "A", 7⟩ : MarketListing) = user_listing sampleScenario 0 ∨
      sampleScenario.quality ≤ (⟨10, 3, 5, "A", 7⟩ : MarketListing).quality) := by
  have hmem : (⟨10, 3, 5, "A", 7⟩ : MarketListing)
      ∈ combined_listings sampleScenario 0 [⟨10, 3, 5, "A", 7⟩] := by
    have hperm : List.Perm
        (List.insertionSort keyLe (market_filter sampleScenario.quality
          [⟨10, 3, 5, "A", 7⟩] ++ [user_listing sampleScenario 0]))
        (market_filter sampleScenario.quality [⟨10, 3, 5, "A", 7⟩]
          ++ [user_listing sampleScenario 0]) :=
      List.perm_insertionSort keyLe _
    refine hperm.mem_iff.mpr ?_
    norm_num [market_filter, sampleScenario]
  exact ⟨hmem,
    ranking_respects_quality_filter sampleScenario 0 [⟨10, 3, 5, "A", 7⟩] _ hmem⟩

end ProfitCalc
